import Mathlib

/-!
Verification development for the `kings` MUD runtime core
(`src/kings/objects.py`, `src/kings/net.py`).

The Python code is shallowly embedded: the in-memory object store (`Db`)
becomes an association list threaded explicitly through every operation,
Python exceptions become `Except`/`Option KErr` results, and the mutable
entity graph is represented by updating the store entry keyed by an
entity's oid.  Python objects are duck-typed; the single `Obj` record
carries the union of the attributes of `Object`, `Player`, `Npc` and
`Location`, with a `kind` tag standing for the dynamic class.  The one
attribute whose *presence* is semantically tested by the code
(`hasattr(self, 'actions')` in `Object.__ror__`) is modelled as an
`Option`: `mailbox = none` means the attribute does not exist.
-/

namespace Kings

/-- The dynamic Python class of an entity (`Object`, `Player`, `Npc`,
`Location`). -/
inductive Kind
  | plainObject
  | player
  | npc
  | location
deriving DecidableEq

/-- Python exceptions raised by the modelled code.  `objectNotFound` and
`locationNotFound` are the classes declared in objects.py; the others are
builtin Python exceptions that the modelled code can raise. -/
inductive KErr
  | objectNotFound (oid : String)
  | locationNotFound (oid : String)
  | indexError
  | typeError
  | attributeError
  | assertionError
  | contentMissing (oid : String)
deriving DecidableEq

/-- An element of a `Player`'s `actions` queue.  The pipe operator enqueues
either a narration string (`SayAction`/`KillAction` broadcasts) or an
unexecuted `Action` object (`LookAction` in `Player.init`, `AttackAction`
in `Player.attack`/`Npc.attack`); action objects are represented by the
oids of the entities they reference. -/
inductive QItem
  | msg (text : String)
  | lookAction (observerOid : String) (target : Option String)
  | attackAction (attackerOid : String) (targetOid : String)
deriving DecidableEq

/-- An entity of the game world.  Fields mirror the Python attributes:
`oid`/`sdesc`/`ldesc`/`locationOid` are `_oid`/`_short_desc`/`_long_desc`/
`_location_oid` (display strings are modelled as plain strings), `hp` is
the health of `Player`/`Npc`, `exits` is `Location._exits`, `running` is
`Player.running`, and `mailbox` is the `actions` queue — `none` when the
attribute does not exist on the object (every non-`Player`). -/
structure Obj where
  kind : Kind
  oid : String
  sdesc : String
  ldesc : String
  locationOid : Option String
  hp : Int
  exits : List (String × String)
  mailbox : Option (List QItem)
  running : Bool
deriving DecidableEq

/-- `Object.__ror__`: the `|` (pipe) operator, "send message to".  The
message is appended to the target's `actions` queue when the target has
one (`hasattr(self, 'actions')`); otherwise nothing happens. -/
def Obj.send (item : QItem) (o : Obj) : Obj :=
  match o.mailbox with
  | some q => { o with mailbox := some (q ++ [item]) }
  | none => o

/-- `Object.short_desc`: the base property returns `_short_desc`;
`Player.short_desc` overrides it to return the oid. -/
def Obj.short_desc (o : Obj) : String :=
  if o.kind = Kind.player then o.oid else o.sdesc

/-- Lookup in the store's id → entity mapping (Python dict access). -/
def lookupA (k : String) : List (String × Obj) → Option Obj
  | [] => none
  | (k2, o) :: t => if k2 = k then some o else lookupA k t

/-- Insertion into the id → entity mapping: overwrites an existing entry
with the same key (Python dict assignment, last-write-wins). -/
def insertA (k : String) (o : Obj) : List (String × Obj) → List (String × Obj)
  | [] => [(k, o)]
  | (k2, o2) :: t => if k2 = k then (k, o) :: t else (k2, o2) :: insertA k o t

/-- Deletion from the id → entity mapping (Python `del`: removes the
binding of the key — a dict holds at most one). -/
def eraseA (k : String) : List (String × Obj) → List (String × Obj)
  | [] => []
  | (k2, o) :: t => if k2 = k then eraseA k t else (k2, o) :: eraseA k t

/-- The object store `Db` of objects.py.  `objects` is the id → entity
dict; `content` models the on-disk YAML content definitions consumed by
`Db.from_yaml` (keyed by oid); `counter` is the class-level
`Object.instance_counter` used by `Object.clone`, threaded through the
store state in this embedding. -/
structure Db where
  objects : List (String × Obj)
  content : List (String × Obj)
  counter : Nat
deriving DecidableEq

/-- `Db.__contains__`. -/
def Db.contains (db : Db) (oid : String) : Bool :=
  (lookupA oid db.objects).isSome

/-- Store lookup as an `Option` (used where Python code catches the
exception or tests membership). -/
def Db.getOpt (db : Db) (oid : String) : Option Obj :=
  lookupA oid db.objects

/-- `Db.get`: returns the stored entity or raises `ObjectNotFound`. -/
def Db.get (db : Db) (oid : String) : Except KErr Obj :=
  match lookupA oid db.objects with
  | some o => Except.ok o
  | none => Except.error (KErr.objectNotFound oid)

/-- `Db.add`: `assert obj.oid` (an empty oid is falsy and fails the
assertion), then `self.objects[obj.oid] = obj`. -/
def Db.add (db : Db) (o : Obj) : Except KErr Db :=
  if o.oid = "" then Except.error KErr.assertionError
  else Except.ok { db with objects := insertA o.oid o db.objects }

/-- `Db.remove`: `del self.objects[obj.oid]`, raising `ObjectNotFound`
when the id is absent. -/
def Db.remove (db : Db) (o : Obj) : Except KErr Db :=
  if db.contains o.oid then
    Except.ok { db with objects := eraseA o.oid db.objects }
  else Except.error (KErr.objectNotFound o.oid)

/-- `Db.query(location_oid=v)`: all stored entities whose `location_oid`
equals the given value. -/
def Db.queryLoc (db : Db) (v : Option String) : List Obj :=
  (db.objects.map Prod.snd).filter (fun o => o.locationOid == v)

/-- `Db.query(oid=oid, location_oid=v)`: all stored entities matching both
attribute equations. -/
def Db.queryOidLoc (db : Db) (oid : String) (v : Option String) : List Obj :=
  (db.objects.map Prod.snd).filter (fun o => o.oid == oid && o.locationOid == v)

/-- `Db.from_yaml(oid=oid)`: loads `<oid>.yaml` from the content directory
and calls `cls.init(**data)`, which constructs the prototype and `Db.add`s
it.  Content files are modelled by the `content` mapping; a missing file
is a load error. -/
def Db.from_yaml (db : Db) (oid : String) : Except KErr (Db × Obj) :=
  match lookupA oid db.content with
  | none => Except.error (KErr.contentMissing oid)
  | some proto =>
    match db.add proto with
    | Except.ok db2 => Except.ok (db2, proto)
    | Except.error e => Except.error e

/-- The derived id `"{0}:{1}".format(cloned.oid, instance_num)` given to a
clone. -/
def cloneId (protoOid : String) (n : Nat) : String :=
  protoOid ++ ":" ++ Nat.repr n

/-- `Object.clone(oid)`: fetch the live instance stored under `oid`,
falling back to `Db.from_yaml` when `Db.get` raises `ObjectNotFound`;
deep-copy it (a value copy in this embedding), bump `instance_counter`,
give the copy the derived id, `Db.add` it and return it. -/
def Object.clone (db : Db) (oid : String) : Except KErr (Db × Obj) :=
  let step := fun (db2 : Db) (proto : Obj) =>
    let n := db2.counter + 1
    let cloned := { proto with oid := cloneId proto.oid n }
    match Db.add { db2 with counter := n } cloned with
    | Except.ok db3 => Except.ok (db3, cloned)
    | Except.error e => Except.error e
  match db.getOpt oid with
  | some proto => step db proto
  | none =>
    match db.from_yaml oid with
    | Except.ok (db2, proto) => step db2 proto
    | Except.error e => Except.error e

/-- The `location_oid` property setter: `Db.instance().get(oid=val)`;
on `ObjectNotFound` it raises `LocationNotFound(val)` (first component
is the entity after the call: unchanged on error), otherwise it sets
`_location_oid = val`. -/
def Obj.location_oid_set (db : Db) (o : Obj) (val : String) : Obj × Option KErr :=
  match db.getOpt val with
  | none => (o, some (KErr.locationNotFound val))
  | some _ => ({ o with locationOid := some val }, none)

/-- `Object.move_to`: `if target_oid in Db.instance()` set
`_location_oid`, else raise `LocationNotFound(target_oid)`.  The first
component is the entity after the call (unchanged when the error is
raised). -/
def Obj.move_to (db : Db) (o : Obj) (targetOid : String) : Obj × Option KErr :=
  if db.contains targetOid then ({ o with locationOid := some targetOid }, none)
  else (o, some (KErr.locationNotFound targetOid))

/-- `Object.location()`: resolves `_location_oid` through the store when
it is truthy (non-`None` and non-empty), returning `None` (and logging)
when the lookup fails. -/
def Obj.location (db : Db) (o : Obj) : Option Obj :=
  match o.locationOid with
  | some l => if l = "" then none else db.getOpt l
  | none => none

/-- Append an item to the `actions` queue of the entity stored under
`oid`: the heap-update reading of piping into an object held by the
store. -/
def dbSend (db : Db) (oid : String) (item : QItem) : Db :=
  { db with objects :=
      db.objects.map (fun p => (p.1, if p.1 == oid then Obj.send item p.2 else p.2)) }

/-- `Player.attack` / `Npc.attack`: `AttackAction(self, target) | target`
— the attack action is enqueued on the *target's* queue (and silently
dropped when the target has none). -/
def Obj.attack (attacker target : Obj) : Obj :=
  Obj.send (QItem.attackAction attacker.oid target.oid) target

/-- The apostrophe character, as a string. -/
def apos : String := String.singleton (Char.ofNat 39)

/-- Outcome of `AttackAction.execute`: the target after the call, the
returned narration, and the delay of the re-attack scheduled with
`gevent.Greenlet(self.requeue); greenlet.start_later(2)` (`none` when no
retry is scheduled). -/
structure AttackResult where
  target : Obj
  narration : String
  requeueDelay : Option Nat
deriving DecidableEq

/-- `AttackAction.execute`: when attacker and target have equal
`location_oid`, subtract `damage = 1` from the target's hp; if the hp is
then below zero return `"You have died."` (no retry), otherwise schedule
`requeue` after 2 time units and narrate the hit; when the
`location_oid`s differ, narrate that the attack stopped, touching no
state. -/
def AttackAction.execute (attacker target : Obj) : AttackResult :=
  if attacker.locationOid = target.locationOid then
    let target2 := { target with hp := target.hp - 1 }
    if target2.hp < 0 then
      { target := target2, narration := "You have died.", requeueDelay := none }
    else
      { target := target2
        narration := attacker.oid ++ " hit you for 1hp (" ++ toString target2.hp
          ++ "hp left)."
        requeueDelay := some 2 }
  else
    { target := target
      narration := attacker.oid ++ " stopped attacking you."
      requeueDelay := none }

/-- `sorted(obj.exits.keys())`. -/
def sortedKeys (exits : List (String × String)) : List String :=
  (exits.map Prod.fst).mergeSort (fun a b => a ≤ b)

/-- The body of `LookAction.execute` after the target `obj` has been
resolved: the long description, then — when the object has an `exits`
attribute (only `Location` defines one) — the exits line and the short
descriptions of the other occupants of the observer's location, joined
with newlines. -/
def lookRender (db : Db) (observer obj : Obj) : String :=
  let output := [obj.ldesc]
  let output :=
    if obj.kind = Kind.location then
      let exitsLine :=
        if obj.exits.isEmpty then "There are no obvious exists"
        else "Exits: " ++ String.intercalate ", " (sortedKeys obj.exits)
      let things := db.queryLoc observer.locationOid
      let output := output ++ [exitsLine]
      if things.isEmpty then output
      else output ++ (things.filter (fun t => !(t.oid == observer.oid))).map Obj.short_desc
    else output
  String.intercalate "\n" output

/-- `LookAction.execute`: when the target id equals the observer's own
`location_oid` it is fetched with `Db.get` (whose `ObjectNotFound` is the
only exception the surrounding `try` catches, yielding the
`There's no "X" here.` narration); otherwise the target is taken as
element `[0]` of a store query, and an empty query result raises an
uncaught `IndexError`. -/
def LookAction.execute (db : Db) (observer : Obj) (toObserve : String) : Except KErr String :=
  if observer.locationOid = some toObserve then
    match db.getOpt toObserve with
    | none => Except.ok ("There" ++ apos ++ "s no \"" ++ toObserve ++ "\" here.")
    | some obj => Except.ok (lookRender db observer obj)
  else
    match db.queryOidLoc toObserve observer.locationOid with
    | [] => Except.error KErr.indexError
    | obj :: _ => Except.ok (lookRender db observer obj)

/-- The per-entity update a `SayAction` broadcast applies to each stored
object: entities in the speaker's location other than the speaker are
piped the message (`'{0} says: "{1}"' | obj`); everything else is left
alone. -/
def sayStep (sayer : Obj) (locOid text : String) (o : Obj) : Obj :=
  if o.locationOid == some locOid && !(o.oid == sayer.oid) then
    Obj.send (QItem.msg text) o
  else o

/-- `SayAction.execute`: resolve the speaker's location (`None` makes the
subsequent `location.contents()` raise `AttributeError`), pipe
`'{sayer} says: "{message}"'` to every other occupant, and return
`'You say: "{message}"'` to the speaker. -/
def SayAction.execute (db : Db) (sayer : Obj) (message : String) : Except KErr (Db × String) :=
  match Obj.location db sayer with
  | none => Except.error KErr.attributeError
  | some location =>
    let text := sayer.oid ++ " says: \"" ++ message ++ "\""
    let objects2 := db.objects.map (fun p => (p.1, sayStep sayer location.oid text p.2))
    Except.ok ({ db with objects := objects2 }, "You say: \"" ++ message ++ "\"")

/-- The per-entity update of the `KillAction` broadcast, exactly analogous
to `sayStep`. -/
def killStep (attacker : Obj) (locOid text : String) (o : Obj) : Obj :=
  if o.locationOid == some locOid && !(o.oid == attacker.oid) then
    Obj.send (QItem.msg text) o
  else o

/-- `KillAction.execute`: resolve a co-located target by oid via a store
query whose `IndexError` (empty result) *is* caught here, yielding the
`There is no "X" here` narration; on success broadcast the fight
announcement to the other occupants, then enqueue reciprocal
`AttackAction`s on the target's and the attacker's queues. -/
def KillAction.execute (db : Db) (attacker : Obj) (targetOid : String) :
    Except KErr (Db × String) :=
  match Obj.location db attacker with
  | none => Except.error KErr.attributeError
  | some location =>
    match db.queryOidLoc targetOid (some location.oid) with
    | [] => Except.ok (db, "There is no \"" ++ targetOid ++ "\" here")
    | target :: _ =>
      let text := attacker.oid ++ " starts to fight " ++ target.oid
      let objects2 := db.objects.map (fun p => (p.1, killStep attacker location.oid text p.2))
      let db2 := { db with objects := objects2 }
      let db3 := dbSend db2 target.oid (QItem.attackAction attacker.oid target.oid)
      let db4 := dbSend db3 attacker.oid (QItem.attackAction target.oid attacker.oid)
      Except.ok (db4, "You start to fight " ++ target.oid)

/-- `ExitAction.execute`: set `to_exit.running = False` and return the
farewell message. -/
def ExitAction.execute (toExit : Obj) (message : String) : Obj × String :=
  ({ toExit with running := false }, message)

/-- What `Player.interpret` selects: either an Action value (identified by
its constructor arguments) or — in the `ls` and unknown-command branches —
a plain string returned directly. -/
inductive Command
  | dump (text : String)
  | lookCmd (observerOid : String) (target : Option String)
  | exitCmd (message : String)
  | sayCmd (message : String)
  | killCmd (target : String)
  | moveCmd (destinationOid : String)
  | unknown (text : String)
deriving DecidableEq

/-- Split a character list at the first space: the part before it and the
part after it (the whole list and an empty remainder when no space
occurs). -/
def splitAtSpace : List Char → List Char × List Char
  | [] => ([], [])
  | c :: t =>
    if c = ' ' then ([], t)
    else
      let r := splitAtSpace t
      (c :: r.1, r.2)

/-- `line.partition(" ")` restricted to its first and third components:
the first whitespace-delimited token and the remainder after the first
space. -/
def partitionSpace (line : String) : String × String :=
  let p := splitAtSpace line.data
  (p.1.asString, p.2.asString)

/-- Abstraction of `repr(Db.instance().objects)` in the `ls` branch: a
deterministic rendering of the store's id → entity dict (the exact field
rendering of Python's `repr` is abstracted to class name and oid). -/
def reprObjects (db : Db) : String :=
  let entry := fun (p : String × Obj) =>
    let cls :=
      match p.2.kind with
      | Kind.plainObject => "Object"
      | Kind.player => "Player"
      | Kind.npc => "Npc"
      | Kind.location => "Location"
    apos ++ p.1 ++ apos ++ ": " ++ cls ++ "(oid=" ++ apos ++ p.2.oid ++ apos ++ ")"
  "\x7b" ++ String.intercalate ", " (db.objects.map entry) ++ "\x7d"

/-- `Player.interpret`: dispatch on the first whitespace-delimited token.
`ls` returns the store dump string; `look` with a non-empty remainder
evaluates `LookAction(rest)` — one positional argument for a constructor
requiring `(observer, to_observe)`, a `TypeError`; bare `look` builds
`LookAction(self, self.location_oid)`; `exit`, `say`, `kill` build their
actions; otherwise the token is looked up in the current room's exits
(`self.location()` returning `None` makes `room.exits` raise
`AttributeError`), building a `MoveAction` on a hit and the
`I don't know what "X" means` string on a miss. -/
def Player.interpret (db : Db) (player : Obj) (line : String) : Except KErr Command :=
  let verb := (partitionSpace line).1
  let rest := (partitionSpace line).2
  if verb = "ls" then Except.ok (Command.dump (reprObjects db))
  else if verb = "look" then
    if rest ≠ "" then Except.error KErr.typeError
    else Except.ok (Command.lookCmd player.oid player.locationOid)
  else if verb = "exit" then Except.ok (Command.exitCmd "Goodbye")
  else if verb = "say" then Except.ok (Command.sayCmd rest)
  else if verb = "kill" then Except.ok (Command.killCmd rest)
  else
    match Obj.location db player with
    | none => Except.error KErr.attributeError
    | some room =>
      match room.exits.lookup verb with
      | some dest => Except.ok (Command.moveCmd dest)
      | none =>
        Except.ok (Command.unknown
          ("I don" ++ apos ++ "t know what \"" ++ verb ++ "\" means"))

/-- `Player.__init__`: `running` as given, `hp = 20`, a fresh empty
`actions` queue, display strings defaulting to `None` (modelled empty);
`Player.init` passes `running=True`. -/
def mkPlayer (oid : String) (locationOid : Option String) : Obj :=
  { kind := Kind.player, oid := oid, sdesc := "", ldesc := "",
    locationOid := locationOid, hp := 20, exits := [],
    mailbox := some [], running := true }

/-- `Npc.__init__`: `hp = 5` and *no* `actions` attribute. -/
def mkNpc (oid sdesc ldesc : String) (locationOid : Option String) : Obj :=
  { kind := Kind.npc, oid := oid, sdesc := sdesc, ldesc := ldesc,
    locationOid := locationOid, hp := 5, exits := [],
    mailbox := none, running := false }

/-- `Location.__init__`: stores `_exits` and has *no* `actions` attribute
(NPC population by cloning at load time is exercised through
`Object.clone` separately). -/
def mkLocation (oid sdesc ldesc : String) (exits : List (String × String)) : Obj :=
  { kind := Kind.location, oid := oid, sdesc := sdesc, ldesc := ldesc,
    locationOid := none, hp := 0, exits := exits,
    mailbox := none, running := false }

/-- `Player.init`: construct the player with `running=True`, `Db.add` it,
then `LookAction(player, player.location_oid) | player` — the *unexecuted*
`LookAction` object is enqueued on the player's own `actions` queue. -/
def Player.init (db : Db) (oid : String) (locationOid : Option String) :
    Except KErr (Db × Obj) :=
  let player := mkPlayer oid locationOid
  match db.add player with
  | Except.error e => Except.error e
  | Except.ok db2 =>
    let item := QItem.lookAction player.oid locationOid
    Except.ok (dbSend db2 player.oid item, Obj.send item player)

/-- `Player.close`: `Db.instance().remove(self)`. -/
def Player.close (db : Db) (player : Obj) : Except KErr Db :=
  db.remove player

/-- Models `net.connect` up to the point where it raises.  The sequence
is: write `"User: "`, read the username, `Player.init(oid=username,
location_oid="town_square")` (which registers the player and enqueues the
unexecuted initial `LookAction` on the player's own queue), set
`player.running = True`, then evaluate
`conn.write(player.look(player.location()) + prompt)`.  `Player` defines
no `look` attribute, so this raises `AttributeError` *before* the
`try/finally` block is entered: the session loop never runs and
`player.close()` (the store removal) is never executed.  The result is
the store after the call, the strings written to the connection, and the
outcome. -/
def connect (db : Db) (username : String) : Db × List String × Except KErr Unit :=
  let writes := ["User: "]
  match Player.init db username (some "town_square") with
  | Except.error e => (db, writes, Except.error e)
  | Except.ok (db2, _player) => (db2, writes, Except.error KErr.attributeError)

/-- A concrete world: the town square location (with a north exit) and the
NPC bob standing in it; the content directory defines a goblin prototype. -/
def townSquare : Obj :=
  mkLocation "town_square" "Town square" "The town square." [("north", "forest")]

/-- An NPC standing in the town square. -/
def bobNpc : Obj :=
  mkNpc "bob" "bob the goblin" "A small goblin." (some "town_square")

/-- The goblin prototype available from the content directory. -/
def goblinProto : Obj :=
  mkNpc "goblin" "a goblin" "A generic goblin." none

/-- The world before any connection. -/
def world0 : Db :=
  { objects := [("town_square", townSquare), ("bob", bobNpc)],
    content := [("goblin", goblinProto)], counter := 0 }

/-- The player alice, standing in the town square. -/
def alice : Obj := mkPlayer "alice" (some "town_square")

/-- The world with alice connected. -/
def world1 : Db :=
  { world0 with objects := world0.objects ++ [("alice", alice)] }

/-- Numeric value of a decimal digit character. -/
def decDigitVal (c : Char) : Nat := c.toNat - 48

/-- Numeric value of a decimal digit string, most significant digit
first. -/
def decVal (l : List Char) : Nat :=
  l.foldl (fun acc c => 10 * acc + decDigitVal c) 0

theorem lookupA_insertA_self (k : String) (o : Obj) (l : List (String × Obj)) :
    lookupA k (insertA k o l) = some o := by
  induction l with
  | nil => simp [insertA, lookupA]
  | cons p t ih =>
    obtain ⟨k2, o2⟩ := p
    by_cases h : k2 = k
    · simp [insertA, lookupA, h]
    · simp [insertA, lookupA, h, ih]

theorem lookupA_insertA_ne (k k2 : String) (o : Obj) (l : List (String × Obj))
    (h : k2 ≠ k) : lookupA k (insertA k2 o l) = lookupA k l := by
  induction l with
  | nil => simp [insertA, lookupA, h]
  | cons p t ih =>
    obtain ⟨k3, o3⟩ := p
    simp only [insertA]
    by_cases h3 : k3 = k2
    · subst h3
      simp [lookupA, h]
    · simp only [if_neg h3]
      by_cases h4 : k3 = k
      · simp [lookupA, h4]
      · simp [lookupA, h4, ih]

theorem lookupA_eraseA_self (k : String) (l : List (String × Obj)) :
    lookupA k (eraseA k l) = none := by
  induction l with
  | nil => simp [eraseA, lookupA]
  | cons p t ih =>
    obtain ⟨k2, o2⟩ := p
    simp only [eraseA]
    by_cases h : k2 = k
    · simp [h, ih]
    · simp [h, lookupA, ih]

theorem lookupA_eraseA_ne (k k2 : String) (l : List (String × Obj))
    (h : k2 ≠ k) : lookupA k (eraseA k2 l) = lookupA k l := by
  induction l with
  | nil => simp [eraseA, lookupA]
  | cons p t ih =>
    obtain ⟨k3, o3⟩ := p
    simp only [eraseA]
    by_cases h3 : k3 = k2
    · subst h3
      simp [lookupA, h, ih]
    · by_cases h4 : k3 = k
      · subst h4
        simp [lookupA, Ne.symm h, ih]
      · simp [h3, lookupA, h4, ih]

theorem lookupA_mapKeyed (h : String → Obj → Obj) (k : String)
    (l : List (String × Obj)) :
    lookupA k (l.map (fun p => (p.1, h p.1 p.2))) = (lookupA k l).map (h k) := by
  induction l with
  | nil => simp [lookupA]
  | cons p t ih =>
    obtain ⟨k2, o2⟩ := p
    by_cases h2 : k2 = k
    · subst h2
      simp [lookupA]
    · simp [lookupA, h2, ih]

theorem string_data_append (a b : String) : (a ++ b).data = a.data ++ b.data := by
  cases a
  cases b
  rfl

theorem toDigitsCore_eq_append (b f : Nat) :
    ∀ (n : Nat) (ds : List Char),
      Nat.toDigitsCore b f n ds = Nat.toDigitsCore b f n [] ++ ds := by
  induction f with
  | zero =>
    intro n ds
    simp [Nat.toDigitsCore]
  | succ f ih =>
    intro n ds
    simp only [Nat.toDigitsCore]
    by_cases h : n / b = 0
    · simp [h]
    · simp only [h, if_false]
      rw [ih (n / b) (Nat.digitChar (n % b) :: ds), ih (n / b) [Nat.digitChar (n % b)]]
      simp

theorem decDigitVal_digitChar (n : Nat) (h : n < 10) :
    decDigitVal (Nat.digitChar n) = n := by
  interval_cases n <;> decide

theorem decVal_append_digit (l : List Char) (c : Char) :
    decVal (l ++ [c]) = 10 * decVal l + decDigitVal c := by
  simp [decVal, List.foldl_append]

theorem decVal_toDigitsCore (f : Nat) :
    ∀ n, n < 10 ^ f → decVal (Nat.toDigitsCore 10 f n []) = n := by
  induction f with
  | zero =>
    intro n h
    have hn : n = 0 := by simpa using Nat.lt_one_iff.mp (by simpa using h)
    subst hn
    simp [Nat.toDigitsCore, decVal]
  | succ f ih =>
    intro n h
    simp only [Nat.toDigitsCore]
    by_cases h0 : n / 10 = 0
    · have hn : n < 10 := by omega
      simp [h0, decVal, decDigitVal_digitChar (n % 10) (by omega)]
      omega
    · simp only [h0, if_false]
      rw [toDigitsCore_eq_append 10 f (n / 10) [Nat.digitChar (n % 10)]]
      rw [decVal_append_digit, decDigitVal_digitChar (n % 10) (by omega)]
      have hdiv : n / 10 < 10 ^ f := by
        have h10 : (0 : Nat) < 10 := by norm_num
        rw [Nat.div_lt_iff_lt_mul h10]
        calc n < 10 ^ (f + 1) := h
          _ = 10 ^ f * 10 := by ring
      rw [ih (n / 10) hdiv]
      omega

theorem decVal_repr (n : Nat) : decVal (Nat.repr n).data = n := by
  have h1 : n < 10 ^ (n + 1) := by
    calc n < 10 ^ n := Nat.lt_pow_self (by norm_num) n
      _ ≤ 10 ^ (n + 1) := Nat.pow_le_pow_right (by norm_num) (Nat.le_succ n)
  simpa [Nat.repr, Nat.toDigits, List.asString] using decVal_toDigitsCore (n + 1) n h1

theorem repr_injective {m n : Nat} (h : Nat.repr m = Nat.repr n) : m = n := by
  have h2 := congrArg (fun s => decVal s.data) h
  simpa [decVal_repr] using h2

theorem cloneId_inj (p : String) {m n : Nat} (h : cloneId p m = cloneId p n) :
    m = n := by
  apply repr_injective
  have hd := congrArg String.data h
  simp only [cloneId, string_data_append, List.append_assoc] at hd
  have hd2 := List.append_cancel_left (List.append_cancel_left hd)
  exact String.ext hd2

theorem cloneId_length (p : String) (n : Nat) :
    (cloneId p n).length = p.length + 1 + (Nat.repr n).length := by
  simp only [cloneId, String.length]
  rw [string_data_append, string_data_append]
  simp [List.length_append]
  omega

theorem ne_cloneId_self (p : String) (n : Nat) : p ≠ cloneId p n := by
  intro h
  have h2 := congrArg String.length h
  rw [cloneId_length] at h2
  omega

theorem cloneId_ne_empty (p : String) (n : Nat) : cloneId p n ≠ "" := by
  intro h
  have h2 := congrArg String.length h
  rw [cloneId_length] at h2
  have h3 : ("" : String).length = 0 := rfl
  omega

theorem add_ok {db db2 : Db} {o : Obj} (h : Db.add db o = Except.ok db2) :
    db2 = { db with objects := insertA o.oid o db.objects } := by
  unfold Db.add at h
  split at h
  · cases h
  · cases h
    rfl

theorem remove_ok {db db2 : Db} {o : Obj} (h : Db.remove db o = Except.ok db2) :
    db2 = { db with objects := eraseA o.oid db.objects } := by
  unfold Db.remove at h
  split at h
  · cases h
    rfl
  · cases h

/-- C1: an entity `E` with a non-empty id added via `Db.add` is returned
by `get(E.id)` until it is removed — later `add`s and `remove`s of other
ids do not disturb it — and after `remove(E)`, `get(E.id)` fails with
`ObjectNotFound`; `remove` of an entity whose id is absent from the store
also fails with `ObjectNotFound`. -/
theorem claim_C1 (db : Db) (e : Obj) (he : e.oid ≠ "") :
    (∃ db1, Db.add db e = Except.ok db1 ∧
      Db.get db1 e.oid = Except.ok e ∧
      (∀ f db2, f.oid ≠ e.oid → Db.add db1 f = Except.ok db2 →
        Db.get db2 e.oid = Except.ok e) ∧
      (∀ g db2, g.oid ≠ e.oid → Db.remove db1 g = Except.ok db2 →
        Db.get db2 e.oid = Except.ok e) ∧
      (∃ db3, Db.remove db1 e = Except.ok db3 ∧
        Db.get db3 e.oid = Except.error (KErr.objectNotFound e.oid) ∧
        Db.remove db3 e = Except.error (KErr.objectNotFound e.oid))) ∧
    (db.contains e.oid = false →
      Db.remove db e = Except.error (KErr.objectNotFound e.oid)) := by
  constructor
  · have hadd : Db.add db e
        = Except.ok { db with objects := insertA e.oid e db.objects } := by
      simp [Db.add, he]
    refine ⟨_, hadd, ?_, ?_, ?_, ?_⟩
    · simp [Db.get, lookupA_insertA_self]
    · intro f db2 hf hline
      have h2 := add_ok hline
      subst h2
      simp [Db.get, lookupA_insertA_ne _ _ _ _ hf, lookupA_insertA_self]
    · intro g db2 hg hline
      have h2 := remove_ok hline
      subst h2
      simp [Db.get, lookupA_eraseA_ne _ _ _ hg, lookupA_insertA_self]
    · refine ⟨{ db with objects := eraseA e.oid (insertA e.oid e db.objects) },
        ?_, ?_, ?_⟩
      · simp [Db.remove, Db.contains, lookupA_insertA_self]
      · simp [Db.get, lookupA_eraseA_self]
      · simp [Db.remove, Db.contains, lookupA_eraseA_self]
  · intro hc
    simp [Db.remove, hc]

theorem claim_C1_witness :
    ∃ db1, Db.add world0 alice = Except.ok db1 ∧
      Db.get db1 alice.oid = Except.ok alice := by
  obtain ⟨⟨db1, h1, h2, _⟩, _⟩ := claim_C1 world0 alice (by decide)
  exact ⟨db1, h1, h2⟩

/-- C2: for every entity and target id absent from the store, both
`move_to` and the `location_oid` setter fail with `LocationNotFound` and
leave the entity's `location_oid` unchanged; when the target id is
present, both set `location_oid` to it. -/
theorem claim_C2 (db : Db) (o : Obj) (t : String) :
    (db.contains t = false →
      Obj.move_to db o t = (o, some (KErr.locationNotFound t)) ∧
      Obj.location_oid_set db o t = (o, some (KErr.locationNotFound t))) ∧
    (db.contains t = true →
      Obj.move_to db o t = ({ o with locationOid := some t }, none) ∧
      Obj.location_oid_set db o t = ({ o with locationOid := some t }, none)) := by
  constructor
  · intro hc
    have hl : lookupA t db.objects = none := by
      cases hx : lookupA t db.objects with
      | none => rfl
      | some x => simp [Db.contains, hx] at hc
    exact ⟨by simp [Obj.move_to, hc], by simp [Obj.location_oid_set, Db.getOpt, hl]⟩
  · intro hc
    obtain ⟨x, hx⟩ : ∃ x, lookupA t db.objects = some x := by
      cases hx : lookupA t db.objects with
      | none => simp [Db.contains, hx] at hc
      | some x => exact ⟨x, rfl⟩
    exact ⟨by simp [Obj.move_to, hc], by simp [Obj.location_oid_set, Db.getOpt, hx]⟩

theorem claim_C2_witness :
    Obj.move_to world1 alice "nowhere" = (alice, some (KErr.locationNotFound "nowhere")) ∧
    Obj.move_to world1 bobNpc "town_square"
      = ({ bobNpc with locationOid := some "town_square" }, none) := by
  exact ⟨((claim_C2 world1 alice "nowhere").1 (by decide)).1,
    ((claim_C2 world1 bobNpc "town_square").2 (by decide)).1⟩

/-- C4: an attack with attacker and target co-located (equal
`location_oid`) reduces the target's hp by exactly 1; if the hp then
drops below zero, the narration is exactly `"You have died."` and no
re-attack is scheduled; otherwise a re-attack is scheduled after a fixed
2-time-unit delay and the narration reports the hit and remaining hp;
when the parties' `location_oid`s differ, the narration says the attack
stopped and the target is untouched. -/
theorem claim_C4 (a t : Obj) :
    (a.locationOid = t.locationOid →
      (AttackAction.execute a t).target = { t with hp := t.hp - 1 } ∧
      (t.hp - 1 < 0 →
        (AttackAction.execute a t).narration = "You have died." ∧
        (AttackAction.execute a t).requeueDelay = none) ∧
      (0 ≤ t.hp - 1 →
        (AttackAction.execute a t).requeueDelay = some 2 ∧
        (AttackAction.execute a t).narration =
          a.oid ++ " hit you for 1hp (" ++ toString (t.hp - 1) ++ "hp left).")) ∧
    (a.locationOid ≠ t.locationOid →
      AttackAction.execute a t =
        { target := t, narration := a.oid ++ " stopped attacking you.",
          requeueDelay := none }) := by
  constructor
  · intro h
    refine ⟨?_, ?_, ?_⟩
    · by_cases hhp : t.hp - 1 < 0 <;> simp [AttackAction.execute, h, hhp]
    · intro hhp
      constructor <;> simp [AttackAction.execute, h, hhp]
    · intro hhp
      have hhp2 : ¬(t.hp - 1 < 0) := by omega
      constructor <;> simp [AttackAction.execute, h, hhp2]
  · intro h
    simp [AttackAction.execute, h]

theorem claim_C4_witness :
    (AttackAction.execute bobNpc alice).target = { alice with hp := alice.hp - 1 } ∧
    (AttackAction.execute bobNpc alice).requeueDelay = some 2 ∧
    AttackAction.execute bobNpc { alice with locationOid := some "forest" } =
      { target := { alice with locationOid := some "forest" },
        narration := bobNpc.oid ++ " stopped attacking you.",
        requeueDelay := none } := by
  refine ⟨((claim_C4 bobNpc alice).1 rfl).1,
    (((claim_C4 bobNpc alice).1 rfl).2.2 (by decide)).1,
    (claim_C4 bobNpc { alice with locationOid := some "forest" }).2 (by decide)⟩

theorem clone_step (d : Db) (p : Obj) (oid : String) (hp : d.getOpt oid = some p)
    (hpo : p.oid = oid) :
    ∃ db1 c1, Object.clone d oid = Except.ok (db1, c1) ∧
      c1.oid = cloneId oid (d.counter + 1) ∧
      db1.counter = d.counter + 1 ∧
      db1.getOpt oid = some p ∧
      db1.getOpt c1.oid = some c1 ∧
      c1 = { p with oid := c1.oid } := by
  subst hpo
  refine ⟨⟨insertA (cloneId p.oid (d.counter + 1))
        { p with oid := cloneId p.oid (d.counter + 1) } d.objects,
      d.content, d.counter + 1⟩,
    { p with oid := cloneId p.oid (d.counter + 1) }, ?_, rfl, rfl, ?_, ?_, rfl⟩
  · simp only [Object.clone, hp]
    simp [Db.add, cloneId_ne_empty]
  · show lookupA p.oid (insertA (cloneId p.oid (d.counter + 1)) _ d.objects) = some p
    rw [lookupA_insertA_ne _ _ _ _ (Ne.symm (ne_cloneId_self p.oid _))]
    exact hp
  · exact lookupA_insertA_self _ _ _

/-- C3: `clone` uses the live instance stored under the prototype id,
consulting the content definitions only when none is stored (and then
registering the loaded prototype); it deep-copies the prototype — the
stored prototype entry is unchanged and every non-id field of the clone
equals the prototype's — assigns the fresh id `"<prototypeId>:<n>"` from
the monotonically increasing counter, stores the clone and returns it;
cloning the same prototype id twice yields strictly increasing `n` and
distinct, non-colliding ids. -/
theorem claim_C3 (db : Db) (oid : String) :
    (∀ p, db.getOpt oid = some p → p.oid = oid →
      ∃ db1 c1, Object.clone db oid = Except.ok (db1, c1) ∧
        c1.oid = cloneId oid (db.counter + 1) ∧
        db1.counter = db.counter + 1 ∧
        db1.getOpt oid = some p ∧
        db1.getOpt c1.oid = some c1 ∧
        c1 = { p with oid := c1.oid } ∧
        ∃ db2 c2, Object.clone db1 oid = Except.ok (db2, c2) ∧
          c2.oid = cloneId oid (db.counter + 2) ∧
          db.counter + 1 < db.counter + 2 ∧
          c1.oid ≠ c2.oid) ∧
    (∀ p, db.getOpt oid = none → lookupA oid db.content = some p → p.oid = oid →
      oid ≠ "" →
      ∃ db1 c1, Object.clone db oid = Except.ok (db1, c1) ∧
        c1.oid = cloneId oid (db.counter + 1) ∧
        db1.counter = db.counter + 1 ∧
        db1.getOpt oid = some p ∧
        db1.getOpt c1.oid = some c1 ∧
        c1 = { p with oid := c1.oid }) := by
  constructor
  · intro p hp hpo
    obtain ⟨db1, c1, h1, h2, h3, h4, h5, h6⟩ := clone_step db p oid hp hpo
    obtain ⟨db2, c2, g1, g2, g3, g4, g5, g6⟩ := clone_step db1 p oid h4 hpo
    refine ⟨db1, c1, h1, h2, h3, h4, h5, h6, db2, c2, g1, ?_, by omega, ?_⟩
    · rw [g2, h3]
    · rw [h2, g2, h3]
      intro heq
      have h7 := cloneId_inj oid heq
      omega
  · intro p hp hcontent hpo hne0
    subst hpo
    have hd2 : db.from_yaml p.oid
        = Except.ok ({ db with objects := insertA p.oid p db.objects }, p) := by
      simp [Db.from_yaml, hcontent, Db.add, hne0]
    have hget2 : Db.getOpt { db with objects := insertA p.oid p db.objects } p.oid
        = some p := lookupA_insertA_self _ _ _
    have heq : Object.clone db p.oid
        = Object.clone { db with objects := insertA p.oid p db.objects } p.oid := by
      simp only [Object.clone, hp, hd2, hget2]
    obtain ⟨db1, c1, h1, h2, h3, h4, h5, h6⟩ :=
      clone_step { db with objects := insertA p.oid p db.objects } p p.oid hget2 rfl
    exact ⟨db1, c1, heq ▸ h1, h2, h3, h4, h5, h6⟩

theorem claim_C3_witness :
    (∃ db1 c1, Object.clone world1 "bob" = Except.ok (db1, c1) ∧
      c1.oid = cloneId "bob" (world1.counter + 1)) ∧
    (∃ db1 c1, Object.clone world0 "goblin" = Except.ok (db1, c1) ∧
      c1.oid = cloneId "goblin" (world0.counter + 1)) := by
  constructor
  · obtain ⟨db1, c1, h1, h2, -⟩ := (claim_C3 world1 "bob").1 bobNpc (by decide) (by decide)
    exact ⟨db1, c1, h1, h2⟩
  · obtain ⟨db1, c1, h1, h2, -⟩ :=
      (claim_C3 world0 "goblin").2 goblinProto (by decide) (by decide) (by decide) (by decide)
    exact ⟨db1, c1, h1, h2⟩

theorem send_mailbox_none (item : QItem) (o : Obj) (h : o.mailbox = none) :
    Obj.send item o = o := by
  simp [Obj.send, h]

theorem sayStep_spec (sayer : Obj) (locOid text : String) (o : Obj) :
    sayStep sayer locOid text o
      = if o.locationOid = some locOid ∧ o.oid ≠ sayer.oid
        then Obj.send (QItem.msg text) o else o := by
  by_cases h1 : o.locationOid = some locOid <;>
    by_cases h2 : o.oid = sayer.oid <;>
      simp [sayStep, h1, h2]

theorem sayStep_mailbox_none (sayer : Obj) (locOid text : String) (o : Obj)
    (h : o.mailbox = none) : sayStep sayer locOid text o = o := by
  rw [sayStep_spec]
  split
  · exact send_mailbox_none _ _ h
  · rfl

theorem killStep_mailbox_none (attacker : Obj) (locOid text : String) (o : Obj)
    (h : o.mailbox = none) : killStep attacker locOid text o = o := by
  by_cases h1 : o.locationOid == some locOid && !(o.oid == attacker.oid)
  · simp [killStep, h1, send_mailbox_none _ _ h]
  · simp [killStep, h1]

theorem lookupA_dbSend (db : Db) (oid : String) (item : QItem) (k : String) :
    lookupA k (dbSend db oid item).objects
      = (lookupA k db.objects).map
          (fun o => if k == oid then Obj.send item o else o) := by
  simp only [dbSend]
  exact lookupA_mapKeyed (fun k2 o => if k2 == oid then Obj.send item o else o) k db.objects

/-- C5 counterexample: in `world1` — player alice and NPC bob co-located
in the town square — alice's Say "hi" succeeds and returns exactly
`You say: "hi"`, but the stored bob is unchanged by it and has *no*
mailbox at all (`Npc.__init__` never creates an `actions` attribute), so
bob's mailbox does not receive `alice says: "hi"` as the claim states. -/
theorem claim_C5_counterexample :
    (SayAction.execute world1 alice "hi").map (fun r => Db.getOpt r.1 "bob")
      = Except.ok (some bobNpc) ∧
    bobNpc.mailbox = none ∧
    (SayAction.execute world1 alice "hi").map Prod.snd
      = Except.ok "You say: \"hi\"" := by
  exact ⟨rfl, rfl, rfl⟩

/-- C5 (amended): when the speaker's location resolves, Say returns
exactly `'You say: "<message>"'` and *attempts* delivery of
`'<speaker> says: "<message>"'` to every co-located entity other than the
speaker, but the pipe is a silent no-op for entities without a mailbox —
in particular an NPC receives nothing — so only co-located mailbox-owning
entities actually receive the message, and every other stored entity is
unchanged. -/
theorem claim_C5 (db : Db) (sayer : Obj) (l message : String)
    (hl : sayer.locationOid = some l) (hl0 : l ≠ "") (loc : Obj)
    (hloc : db.getOpt l = some loc) :
    ∃ db2, SayAction.execute db sayer message
        = Except.ok (db2, "You say: \"" ++ message ++ "\"") ∧
      ∀ k o, lookupA k db.objects = some o →
        lookupA k db2.objects
          = some (if o.locationOid = some loc.oid ∧ o.oid ≠ sayer.oid
              then Obj.send
                (QItem.msg (sayer.oid ++ " says: \"" ++ message ++ "\"")) o
              else o) ∧
        (o.mailbox = none → lookupA k db2.objects = some o) := by
  have hlocn : Obj.location db sayer = some loc := by
    simp [Obj.location, hl, hl0, hloc]
  refine ⟨⟨db.objects.map (fun p =>
      (p.1, sayStep sayer loc.oid
        (sayer.oid ++ " says: \"" ++ message ++ "\"") p.2)),
      db.content, db.counter⟩, ?_, ?_⟩
  · simp only [SayAction.execute, hlocn]
  · intro k o hk
    have hmain :
        lookupA k (db.objects.map (fun p =>
            (p.1, sayStep sayer loc.oid
              (sayer.oid ++ " says: \"" ++ message ++ "\"") p.2)))
          = some (sayStep sayer loc.oid
              (sayer.oid ++ " says: \"" ++ message ++ "\"") o) := by
      rw [lookupA_mapKeyed
        (fun _ o2 => sayStep sayer loc.oid
          (sayer.oid ++ " says: \"" ++ message ++ "\"") o2) k db.objects]
      rw [hk]
      rfl
    refine ⟨?_, ?_⟩
    · rw [hmain, sayStep_spec]
    · intro hmb
      rw [hmain, sayStep_mailbox_none _ _ _ _ hmb]

theorem claim_C5_witness :
    ∃ db2, SayAction.execute world1 alice "hi"
      = Except.ok (db2, "You say: \"" ++ "hi" ++ "\"") := by
  obtain ⟨db2, h1, -⟩ :=
    claim_C5 world1 alice "town_square" "hi" rfl (by decide) townSquare (by decide)
  exact ⟨db2, h1⟩

/-- C6: the claim fails on the code.  In `world1`, alice (in the town
square) looking at "ghost" — an id absent from the store — takes the
query branch of `LookAction.execute`, whose empty result makes `[0]`
raise an `IndexError` that the `except ObjectNotFound` clause does not
catch: an exception propagates instead of the `There's no "ghost" here.`
narration.  The graceful narration is produced only on the
own-location branch (second conjunct: alice observing her own dangling
location id "limbo"). -/
theorem claim_C6 :
    LookAction.execute world1 alice "ghost" = Except.error KErr.indexError ∧
    LookAction.execute world1 { alice with locationOid := some "limbo" } "limbo"
      = Except.ok ("There" ++ apos ++ "s no \"limbo\" here.") := by
  exact ⟨rfl, rfl⟩

/-- C7: the dispatch of `Player.interpret` matches the claim on every
branch except `look <target>`: there the code evaluates
`LookAction(rest)` — a single positional argument for a constructor
requiring `(observer, to_observe)` — which raises `TypeError` instead of
yielding a Look action (first conjunct).  The remaining conjuncts
evaluate the other branches: bare `look`, `exit`, `say`, `kill`, an
exit-name Move, the unknown-command narration, and `ls`. -/
theorem claim_C7 :
    Player.interpret world1 alice "look bob" = Except.error KErr.typeError ∧
    Player.interpret world1 alice "look"
      = Except.ok (Command.lookCmd "alice" (some "town_square")) ∧
    Player.interpret world1 alice "exit" = Except.ok (Command.exitCmd "Goodbye") ∧
    Player.interpret world1 alice "say hi there"
      = Except.ok (Command.sayCmd "hi there") ∧
    Player.interpret world1 alice "kill bob" = Except.ok (Command.killCmd "bob") ∧
    Player.interpret world1 alice "north" = Except.ok (Command.moveCmd "forest") ∧
    Player.interpret world1 alice "dance"
      = Except.ok (Command.unknown
          ("I don" ++ apos ++ "t know what \"dance\" means")) ∧
    Player.interpret world1 alice "ls"
      = Except.ok (Command.dump (reprObjects world1)) := by
  exact ⟨rfl, rfl, rfl, rfl, rfl, rfl, rfl, rfl⟩

/-- C8: connecting as "alice" does create and register a Player with id
"alice" located at "town_square", but what sits on the new player's
mailbox is the *unexecuted* `LookAction` object, not its narration text,
and nothing beyond the `"User: "` prompt is ever delivered: the next step
evaluates `player.look(player.location())`, and `Player` defines no
`look` attribute, so the session raises `AttributeError` before any
narration reaches the connection. -/
theorem claim_C8 :
    (connect world0 "alice").2.2 = Except.error KErr.attributeError ∧
    Db.getOpt (connect world0 "alice").1 "alice"
      = some { mkPlayer "alice" (some "town_square") with
          mailbox := some [QItem.lookAction "alice" (some "town_square")] } ∧
    (connect world0 "alice").2.1 = ["User: "] := by
  exact ⟨rfl, rfl, rfl⟩

/-- C9: the claim fails on the code.  The `try/finally` of `net.connect`
begins only after the setup writes; the write
`conn.write(player.look(...))` raises `AttributeError` (no `look`
attribute) before the block is entered, and on that exit path the Player
entity "alice" is still registered in the store — `player.close()` never
ran (third conjunct: running it would have removed the entry). -/
theorem claim_C9 :
    (connect world0 "alice").2.2 = Except.error KErr.attributeError ∧
    Db.contains (connect world0 "alice").1 "alice" = true ∧
    (∃ db2, Player.close (connect world0 "alice").1
        (mkPlayer "alice" (some "town_square")) = Except.ok db2 ∧
      Db.contains db2 "alice" = false) := by
  exact ⟨rfl, rfl, ⟨_, rfl, rfl⟩⟩

/-- C10: piping a message into an entity that has no `actions` attribute
is a silent no-op; every `Npc` and every `Location` the code constructs
lacks the attribute; consequently the Say and Kill broadcasts leave every
stored mailbox-less entity completely unchanged, and the `AttackAction`
that `attack` pipes into a mailbox-less target is dropped. -/
theorem claim_C10 :
    (∀ item o, o.mailbox = none → Obj.send item o = o) ∧
    (∀ oid sd ld lo, (mkNpc oid sd ld lo).mailbox = none) ∧
    (∀ oid sd ld ex, (mkLocation oid sd ld ex).mailbox = none) ∧
    (∀ a t, t.mailbox = none → Obj.attack a t = t) ∧
    (∀ db sayer message db2 nar,
      SayAction.execute db sayer message = Except.ok (db2, nar) →
      ∀ k o, lookupA k db.objects = some o → o.mailbox = none →
        lookupA k db2.objects = some o) ∧
    (∀ db attacker targetOid db2 nar,
      KillAction.execute db attacker targetOid = Except.ok (db2, nar) →
      ∀ k o, lookupA k db.objects = some o → o.mailbox = none →
        lookupA k db2.objects = some o) := by
  refine ⟨send_mailbox_none, fun _ _ _ _ => rfl, fun _ _ _ _ => rfl,
    fun a t h => send_mailbox_none _ _ h, ?_, ?_⟩
  · intro db sayer message db2 nar hex k o hk hmb
    unfold SayAction.execute at hex
    cases hloc : Obj.location db sayer with
    | none =>
      rw [hloc] at hex
      cases hex
    | some loc =>
      rw [hloc] at hex
      simp only [] at hex
      cases hex
      rw [lookupA_mapKeyed
        (fun _ o2 => sayStep sayer loc.oid
          (sayer.oid ++ " says: \"" ++ message ++ "\"") o2) k db.objects]
      rw [hk]
      simp [sayStep_mailbox_none _ _ _ _ hmb]
  · intro db attacker targetOid db2 nar hex k o hk hmb
    unfold KillAction.execute at hex
    cases hloc : Obj.location db attacker with
    | none =>
      rw [hloc] at hex
      cases hex
    | some loc =>
      rw [hloc] at hex
      simp only [] at hex
      cases hq : db.queryOidLoc targetOid (some loc.oid) with
      | nil =>
        rw [hq] at hex
        simp only [] at hex
        cases hex
        exact hk
      | cons target rest =>
        rw [hq] at hex
        simp only [] at hex
        cases hex
        rw [lookupA_dbSend, lookupA_dbSend]
        rw [lookupA_mapKeyed
          (fun _ o2 => killStep attacker loc.oid
            (attacker.oid ++ " starts to fight " ++ target.oid) o2) k db.objects]
        rw [hk]
        simp [killStep_mailbox_none _ _ _ _ hmb, send_mailbox_none _ _ hmb]

/-- The store after alice's Say "hi" in `world1`. -/
def world1saidHi : Db :=
  { world1 with objects := world1.objects.map (fun p =>
      (p.1, sayStep alice "town_square" ("alice says: \"hi\"") p.2)) }

theorem claim_C10_witness :
    Obj.send (QItem.msg "hello") bobNpc = bobNpc ∧
    (mkNpc "gob" "a gob" "A gob." none).mailbox = none ∧
    (mkLocation "cave" "Cave" "A cave." []).mailbox = none ∧
    Obj.attack alice bobNpc = bobNpc ∧
    lookupA "bob" world1saidHi.objects = some bobNpc ∧
    lookupA "bob" world1.objects = some bobNpc := by
  obtain ⟨h1, h2, h3, h4, h5, h6⟩ := claim_C10
  refine ⟨h1 _ _ rfl, h2 _ _ _ _, h3 _ _ _ _, h4 _ _ rfl, ?_, ?_⟩
  · exact h5 world1 alice "hi" world1saidHi ("You say: \"hi\"") rfl "bob" bobNpc rfl rfl
  · exact h6 world1 alice "ghost" world1 ("There is no \"ghost\" here") rfl "bob" bobNpc rfl rfl

end Kings
